import Mathlib

/-!
Shallow embedding of the `macros` crate's schema-to-SQL translation engine.

Two translation paths exist in the source and both are embedded here:
  * the pipeline path: `src/parser.rs` (ParsedField/ParsedStruct, parse_field,
    parse_struct), `src/utils.rs` (extract_comment, map_type_to_sql,
    get_table_name) and `src/sql_generator.rs` (generate_*_sql), which emits
    numbered `$1, $2, ...` placeholders;
  * the monolithic path inside `sql_crud_derive` of `src/lib.rs`, which emits
    unnumbered `?` placeholders (its helper functions `extract_comment`,
    `map_type_to_sql`, `get_table_name` are textually identical to the ones in
    `src/utils.rs`, so the same Lean definitions serve both).

Rust `panic!`/`Expect`-failures are modelled as `Option.none`; `syn` inputs
(attributes, types, derive input) are modelled by the small inductive types
below, keeping exactly the structure the source inspects.
-/

/-- One `syn::Attribute` as the source reads it: `path` is the attribute's
identifier (`attr.path.is_ident(..)`), `value` is `some v` exactly when
`attr.parse_meta()` yields `Ok(Meta::NameValue(..))` with a string literal
`v`, and `none` otherwise (path-only attributes such as `#[primary_key]`). -/
structure Attr where
  path : String
  value : Option String
deriving DecidableEq, Repr

/-- A `syn::Type` as far as the source inspects it: `Type::Path` keeps its
qualifying segments and (separately, since `segments.last().unwrap()` relies
on nonemptiness) the final segment's identifier; every other `Type` variant
is `other` (the source maps those to `TEXT`). -/
inductive RustType where
  | path (front : List String) (lastSeg : String)
  | other
deriving DecidableEq, Repr

/-- A named struct field as `syn` presents it: identifier, type, attributes. -/
structure RustField where
  name : String
  ty : RustType
  attrs : List Attr
deriving DecidableEq, Repr

/-- `syn::Fields`: named fields, tuple fields (`Fields::Unnamed`, only their
count matters to the source, which rejects them), or a unit struct. -/
inductive FieldsKind where
  | named (fields : List RustField)
  | unnamed (count : Nat)
  | unit
deriving DecidableEq, Repr

/-- `syn::Data`: struct, enum or union. -/
inductive DataKind where
  | structData (fields : FieldsKind)
  | enumData
  | unionData
deriving DecidableEq, Repr

/-- `syn::DeriveInput`: the derive macro's input. -/
structure DeriveInput where
  ident : String
  attrs : List Attr
  data : DataKind
deriving DecidableEq, Repr

/-- `ParsedField` from `src/parser.rs`. -/
structure ParsedField where
  name : String
  ty : RustType
  sql_type : String
  is_primary_key : Bool
  comment : Option String
deriving DecidableEq, Repr

/-- `ParsedStruct` from `src/parser.rs`. -/
structure ParsedStruct where
  name : String
  table_name : String
  fields : List ParsedField
  comment : Option String
deriving DecidableEq, Repr

/-- Rust's `Vec::join(sep)` on strings, as used throughout the source. -/
def strJoin (sep : String) : List String → String
  | [] => ""
  | [a] => a
  | a :: b :: rest => a ++ sep ++ strJoin sep (b :: rest)

/-- The number of separators `Vec::join` inserts between the listed pieces
(the commas separating column definitions, for a comma separator). -/
def joinSeps : List String → Nat
  | [] => 0
  | [_] => 0
  | _ :: b :: rest => joinSeps (b :: rest) + 1

/-- Rust's `str::replace('\'', "''")` on the underlying character list:
every single-quote character is doubled. -/
def escQuotesList : List Char → List Char
  | [] => []
  | c :: rest => if c = '\'' then '\'' :: '\'' :: escQuotesList rest else c :: escQuotesList rest

/-- Rust's `comment.replace('\'', "''")` from both generator paths. -/
def escapeQuotes (s : String) : String :=
  String.mk (escQuotesList s.data)

/-- The number of single-quote characters in a string. -/
def countQuote (s : String) : Nat :=
  s.data.count '\''

/-- The ` COMMENT '…'` suffix both paths append for a present comment
(`format!(" COMMENT '{}'", comment.replace('\'', "''"))`), empty otherwise. -/
def commentSuffix : Option String → String
  | some c => " COMMENT '" ++ escapeQuotes c ++ "'"
  | none => ""

/-- `extract_comment` from `src/utils.rs` (identical in `src/lib.rs`): a
`#[comment = "…"]` attribute wins (the last such, since the loop overwrites),
otherwise the trimmed `doc` lines joined by single spaces, otherwise none. -/
def extract_comment (attrs : List Attr) : Option String :=
  let r := attrs.foldl
    (fun (acc : Option String × List String) (attr : Attr) =>
      if attr.path == "comment" then
        match attr.value with
        | some v => (some v, acc.2)
        | none => acc
      else if attr.path == "doc" then
        match attr.value with
        | some v => (acc.1, acc.2 ++ [v.trim])
        | none => acc
      else acc)
    (none, [])
  match r.1 with
  | some v => some v
  | none => if r.2.isEmpty then none else some (strJoin " " r.2)

/-- The name-keyed match inside `map_type_to_sql` (`src/utils.rs` and
`src/lib.rs`): Rust matches string literals by sequential equality tests. -/
def map_ident (ident : String) : String :=
  if ident = "i32" then "INT"
  else if ident = "i64" then "BIGINT"
  else if ident = "String" then "VARCHAR(255)"
  else if ident = "bool" then "BOOLEAN"
  else if ident = "f32" then "FLOAT"
  else if ident = "f64" then "DOUBLE"
  else if ident = "NaiveDateTime" then "DATETIME"
  else if ident = "Uuid" then "UUID"
  else ident

/-- `map_type_to_sql` from `src/utils.rs` (identical in `src/lib.rs`): for a
path type the final segment's identifier is looked up, every non-path type
becomes `TEXT`. -/
def map_type_to_sql : RustType → String
  | .path _ lastSeg => map_ident lastSeg
  | .other => "TEXT"

/-- Rust's `str::to_lowercase` as the source uses it (ASCII identifiers):
each character lower-cased. -/
def to_lowercase (s : String) : String :=
  String.mk (s.data.map Char.toLower)

/-- `get_table_name` from `src/utils.rs` (identical in `src/lib.rs`): the
first `#[table_name = "…"]` attribute carrying a string value wins, otherwise
the lower-cased default. -/
def get_table_name (attrs : List Attr) (deflt : String) : String :=
  match attrs.find? (fun a => a.path == "table_name" && a.value.isSome) with
  | some a => a.value.getD ""
  | none => to_lowercase deflt

/-- `parse_field` from `src/parser.rs`: the last `#[sql_type = "…"]` value
wins (the loop overwrites), otherwise `map_type_to_sql`; the primary-key flag
is the presence of any `#[primary_key]` attribute. -/
def parse_field (f : RustField) : ParsedField :=
  let sqlTy := f.attrs.foldl
    (fun (acc : Option String) (a : Attr) =>
      if a.path == "sql_type" then
        match a.value with
        | some v => some v
        | none => acc
      else acc)
    none
  { name := f.name
    ty := f.ty
    sql_type := sqlTy.getD (map_type_to_sql f.ty)
    is_primary_key := f.attrs.any (fun a => a.path == "primary_key")
    comment := extract_comment f.attrs }

/-- `parse_struct` from `src/parser.rs`; the `panic!` on tuple/unit structs,
enums and unions is modelled as `none`. -/
def parse_struct (input : DeriveInput) : Option ParsedStruct :=
  match input.data with
  | .structData (.named fs) =>
      some { name := input.ident
             table_name := get_table_name input.attrs input.ident
             fields := fs.map parse_field
             comment := extract_comment input.attrs }
  | _ => none

/-- Whether a derive input's data is a struct with named fields (the only
shape `parse_struct` and `sql_crud_derive` accept). -/
def isNamedStruct : DataKind → Bool
  | .structData (.named _) => true
  | _ => false

/-- The per-field column text built by the loop of
`generate_create_table_sql` in `src/sql_generator.rs`. -/
def pipeline_column_def (f : ParsedField) : String :=
  let column := "    " ++ f.name ++ " " ++ f.sql_type
  let column := if f.is_primary_key then column ++ " PRIMARY KEY" else column
  let column := match f.comment with
    | some comment => column ++ (" COMMENT '" ++ escapeQuotes comment ++ "'")
    | none => column
  column

/-- `generate_create_table_sql` from `src/sql_generator.rs`. -/
def generate_create_table_sql (parsed : ParsedStruct) : String :=
  let sql := "CREATE TABLE IF NOT EXISTS " ++ parsed.table_name ++ " (\n"
  let columns := parsed.fields.map pipeline_column_def
  let sql := sql ++ strJoin ",\n" columns ++ "\n)"
  let sql := match parsed.comment with
    | some comment => sql ++ (" COMMENT '" ++ escapeQuotes comment ++ "'")
    | none => sql
  sql ++ ";"

/-- `generate_insert_sql` from `src/sql_generator.rs`: numbered `$i`
placeholders, one per field via `enumerate()`. -/
def generate_insert_sql (parsed : ParsedStruct) : String :=
  let columns := strJoin ", " (parsed.fields.map (·.name))
  let placeholders := strJoin ", "
    (parsed.fields.enum.map (fun pr => "$" ++ toString (pr.1 + 1)))
  "INSERT INTO " ++ parsed.table_name ++ " (" ++ columns ++ ") VALUES (" ++ placeholders ++ ");"

/-- `generate_update_sql` from `src/sql_generator.rs`. The
`.find(..).expect("No primary key defined")` is modelled as `Option`: `none`
when no field is flagged, otherwise the statement built from the FIRST
flagged field; non-key fields get `$1..$k` and the key gets `$(k+1)`. -/
def generate_update_sql (parsed : ParsedStruct) : Option String :=
  match parsed.fields.find? (·.is_primary_key) with
  | none => none
  | some primary_key =>
      let nonPk := parsed.fields.filter (fun f => !f.is_primary_key)
      let set_clauses := strJoin ", "
        (nonPk.enum.map (fun pr => pr.2.name ++ " = $" ++ toString (pr.1 + 1)))
      let pk_index := nonPk.length + 1
      some ("UPDATE " ++ parsed.table_name ++ " SET " ++ set_clauses ++
        " WHERE " ++ primary_key.name ++ " = $" ++ toString pk_index ++ ";")

/-- `generate_delete_sql` from `src/sql_generator.rs`, `expect` as `Option`. -/
def generate_delete_sql (parsed : ParsedStruct) : Option String :=
  (parsed.fields.find? (·.is_primary_key)).map (fun primary_key =>
    "DELETE FROM " ++ parsed.table_name ++ " WHERE " ++ primary_key.name ++ " = $1;")

/-- `generate_select_sql` from `src/sql_generator.rs`. -/
def generate_select_sql (parsed : ParsedStruct) : String :=
  "SELECT " ++ strJoin ", " (parsed.fields.map (·.name)) ++
    " FROM " ++ parsed.table_name ++ ";"

/-- `generate_select_by_id_sql` from `src/sql_generator.rs`, `expect` as
`Option`. -/
def generate_select_by_id_sql (parsed : ParsedStruct) : Option String :=
  (parsed.fields.find? (·.is_primary_key)).map (fun primary_key =>
    "SELECT " ++ strJoin ", " (parsed.fields.map (·.name)) ++
      " FROM " ++ parsed.table_name ++ " WHERE " ++ primary_key.name ++ " = $1;")

/-- The number of primary-key-flagged fields of a parsed struct. -/
def countPrimaryKeys (p : ParsedStruct) : Nat :=
  (p.fields.filter (·.is_primary_key)).length

/-- Whether a raw field carries a `#[primary_key]` attribute, as tested
throughout `sql_crud_derive` in `src/lib.rs`. -/
def mono_is_pk_field (f : RustField) : Bool :=
  f.attrs.any (fun a => a.path == "primary_key")

/-- The `primary_keys` name list accumulated by the field loop of
`sql_crud_derive` in `src/lib.rs`. -/
def mono_primary_keys (fields : List RustField) : List String :=
  (fields.filter mono_is_pk_field).map (·.name)

/-- The per-field `sql_type` resolution of `sql_crud_derive` in `src/lib.rs`:
the FIRST `#[sql_type]` attribute is taken (`find`), its string value used if
present, otherwise `map_type_to_sql`. -/
def mono_sql_type (f : RustField) : String :=
  match f.attrs.find? (fun a => a.path == "sql_type") with
  | some a =>
      match a.value with
      | some v => v
      | none => map_type_to_sql f.ty
  | none => map_type_to_sql f.ty

/-- The `column_def` built per field by `sql_crud_derive` in `src/lib.rs`
(`format!("{field_name} {sql_type}{comment}")`): no inline key marker. -/
def mono_column_def (f : RustField) : String :=
  f.name ++ " " ++ mono_sql_type f ++ commentSuffix (extract_comment f.attrs)

/-- The `primary_key_def` of `sql_crud_derive` in `src/lib.rs`: a table-level
composite `PRIMARY KEY (…)` clause when any field is flagged, else empty. -/
def mono_primary_key_def (fields : List RustField) : String :=
  if (mono_primary_keys fields).isEmpty then ""
  else ",\n    PRIMARY KEY (" ++ strJoin ", " (mono_primary_keys fields) ++ ")"

/-- The `create_table_sql` of `sql_crud_derive` in `src/lib.rs`. -/
def mono_create_table_sql (attrs : List Attr) (table_name : String)
    (fields : List RustField) : String :=
  "CREATE TABLE " ++ table_name ++ " (\n    " ++
    strJoin ",\n    " (fields.map mono_column_def) ++
    mono_primary_key_def fields ++ "\n)" ++
    commentSuffix (extract_comment attrs) ++ ";"

/-- The `insert_sql` of `sql_crud_derive` in `src/lib.rs`: unnumbered `?`
placeholders, no trailing semicolon. -/
def mono_insert_sql (table_name : String) (fields : List RustField) : String :=
  let insert_fields := strJoin ", " (fields.map (·.name))
  let insert_values := strJoin ", " (fields.map (fun _ => "?"))
  "INSERT INTO " ++ table_name ++ " (" ++ insert_fields ++ ") VALUES (" ++ insert_values ++ ")"

/-- The `update_sql` of `sql_crud_derive` in `src/lib.rs`: non-key fields are
those whose NAME is not in `primary_keys`; the where clause `AND`-joins one
`pk = ?` test per flagged field. -/
def mono_update_sql (table_name : String) (fields : List RustField) : String :=
  let primary_keys := mono_primary_keys fields
  let update_fields := strJoin ", "
    ((fields.filter (fun f => !(primary_keys.contains f.name))).map
      (fun f => f.name ++ " = ?"))
  let where_clause := strJoin " AND " (primary_keys.map (fun pk => pk ++ " = ?"))
  "UPDATE " ++ table_name ++ " SET " ++ update_fields ++ " WHERE " ++ where_clause

/-- The column shape the specification describes for the pipeline
`create_table`: name, type, an inline key marker exactly for flagged fields,
then the escaped comment. -/
def spec_column_shape (f : ParsedField) : String :=
  "    " ++ f.name ++ " " ++ f.sql_type ++
    (if f.is_primary_key then " PRIMARY KEY" else "") ++ commentSuffix f.comment

/-- The `i32` type. -/
def tyI32 : RustType := .path [] "i32"

/-- The `String` type. -/
def tyString : RustType := .path [] "String"

/-- The spec's example entity `User`, already parsed: `id` is the single
primary key, table name defaults to `user`. -/
def demoUser : ParsedStruct :=
  { name := "User"
    table_name := "user"
    fields :=
      [ { name := "id", ty := tyI32, sql_type := "INT", is_primary_key := true, comment := none },
        { name := "name", ty := tyString, sql_type := "VARCHAR(255)", is_primary_key := false, comment := none },
        { name := "email", ty := tyString, sql_type := "VARCHAR(255)", is_primary_key := false, comment := none } ]
    comment := none }

/-- The raw fields of the `User` example, for the monolithic path. -/
def demoUserFields : List RustField :=
  [ { name := "id", ty := tyI32, attrs := [{ path := "primary_key", value := none }] },
    { name := "name", ty := tyString, attrs := [] },
    { name := "email", ty := tyString, attrs := [] } ]

/-- The `User` example as a derive input. -/
def demoUserInput : DeriveInput :=
  { ident := "User", attrs := [], data := .structData (.named demoUserFields) }

/-- A parsed struct with TWO primary-key-flagged fields `a` and `b`. -/
def demoTwoPk : ParsedStruct :=
  { name := "T"
    table_name := "t"
    fields :=
      [ { name := "a", ty := tyI32, sql_type := "INT", is_primary_key := true, comment := none },
        { name := "b", ty := tyI32, sql_type := "INT", is_primary_key := true, comment := none },
        { name := "c", ty := tyI32, sql_type := "INT", is_primary_key := false, comment := none } ]
    comment := none }

/-- A parsed struct with no primary-key-flagged field. -/
def demoNoPk : ParsedStruct :=
  { name := "N"
    table_name := "n"
    fields := [ { name := "x", ty := tyI32, sql_type := "INT", is_primary_key := false, comment := none } ]
    comment := none }

/-- A derive input whose struct has named fields but ZERO of them. -/
def demoEmptyNamed : DeriveInput :=
  { ident := "Empty", attrs := [], data := .structData (.named []) }

/-! Helper lemmas about the list and string combinators of the embedding. -/

theorem find?_eq_head?_filter {α : Type} (q : α → Bool) (l : List α) :
    l.find? q = (l.filter q).head? := by
  induction l with
  | nil => rfl
  | cons a t ih =>
      cases h : q a with
      | true => rw [List.find?_cons_of_pos _ h, List.filter_cons_of_pos h, List.head?_cons]
      | false =>
          have h' : ¬q a = true := by simp [h]
          rw [List.find?_cons_of_neg _ h', List.filter_cons_of_neg h', ih]

theorem enumFrom_map_succ_eq_zipWith {α β : Type} (g : α → Nat → β) :
    ∀ (l : List α) (n : Nat),
      (List.enumFrom n l).map (fun pr => g pr.2 (pr.1 + 1)) =
        List.zipWith g l (List.range' (n + 1) l.length) := by
  intro l
  induction l with
  | nil => intro n; rfl
  | cons a t ih =>
      intro n
      simp only [List.enumFrom, List.map_cons, List.length_cons, List.range'_succ,
        List.zipWith_cons_cons]
      rw [ih (n + 1)]

theorem enum_set_clauses_eq (l : List ParsedField) :
    l.enum.map (fun pr => pr.2.name ++ " = $" ++ toString (pr.1 + 1)) =
      List.zipWith (fun (f : ParsedField) (i : Nat) => f.name ++ " = $" ++ toString i) l
        (List.range' 1 l.length) := by
  simpa using
    enumFrom_map_succ_eq_zipWith
      (fun (f : ParsedField) (i : Nat) => f.name ++ " = $" ++ toString i) l 0

theorem enum_placeholders_eq (l : List ParsedField) :
    l.enum.map (fun pr => "$" ++ toString (pr.1 + 1)) =
      (List.range' 1 l.length).map (fun i => "$" ++ toString i) := by
  have h : ∀ (t : List ParsedField) (n : Nat),
      (List.enumFrom n t).map (fun pr => "$" ++ toString (pr.1 + 1)) =
        (List.range' (n + 1) t.length).map (fun i => "$" ++ toString i) := by
    intro t
    induction t with
    | nil => intro n; rfl
    | cons a r ih =>
        intro n
        simp only [List.enumFrom, List.map_cons, List.length_cons, List.range'_succ]
        rw [ih (n + 1)]
  simpa using h l 0

theorem strJoin_cons_data (sep a : String) (l : List String) :
    ∃ r, (strJoin sep (a :: l)).data = a.data ++ r := by
  cases l with
  | nil => exact ⟨[], by simp [strJoin]⟩
  | cons b t =>
      exact ⟨sep.data ++ (strJoin sep (b :: t)).data,
        by simp [strJoin, String.data_append]⟩

theorem strJoin_getLast?_mem (sep : String) (c : Char) :
    ∀ l : List String, l ≠ [] → (∀ s ∈ l, s.data.getLast? = some c) →
      (strJoin sep l).data.getLast? = some c := by
  intro l
  induction l with
  | nil => intro h; exact absurd rfl h
  | cons a t ih =>
      intro _ hall
      cases t with
      | nil => simpa [strJoin] using hall a (by simp)
      | cons b r =>
          have htail := ih (by simp) (fun s hs => hall s (List.mem_cons_of_mem a hs))
          have hdata : (strJoin sep (a :: b :: r)).data =
              (a ++ sep).data ++ (strJoin sep (b :: r)).data := by
            simp [strJoin, String.data_append, List.append_assoc]
          rw [hdata, List.getLast?_append, htail]
          rfl

theorem joinSeps_eq_length_sub_one : ∀ l : List String, joinSeps l = l.length - 1 := by
  intro l
  induction l with
  | nil => rfl
  | cons a t ih =>
      cases t with
      | nil => rfl
      | cons b r =>
          simp only [joinSeps, List.length_cons] at ih ⊢
          omega

theorem count_escQuotesList :
    ∀ l : List Char, (escQuotesList l).count '\'' = 2 * l.count '\'' := by
  intro l
  induction l with
  | nil => rfl
  | cons c t ih =>
      by_cases h : c = '\''
      · subst h
        simp [escQuotesList, List.count_cons, ih]
        omega
      · simp [escQuotesList, h, List.count_cons, ih]

theorem pipeline_column_def_eq_shape (f : ParsedField) :
    pipeline_column_def f = spec_column_shape f := by
  rcases f with ⟨nm, ty, st, pk, cmt⟩
  cases pk <;> cases cmt <;>
    simp [pipeline_column_def, spec_column_shape, commentSuffix, String.append_empty,
      String.append_assoc]

theorem pipeline_create_table_eq (p : ParsedStruct) :
    generate_create_table_sql p =
      "CREATE TABLE IF NOT EXISTS " ++ p.table_name ++ " (\n" ++
        strJoin ",\n" (p.fields.map spec_column_shape) ++ "\n)" ++
        commentSuffix p.comment ++ ";" := by
  have hfun : pipeline_column_def = spec_column_shape := funext pipeline_column_def_eq_shape
  rcases p with ⟨nm, tn, fsP, cmt⟩
  cases cmt <;>
    simp [generate_create_table_sql, commentSuffix, hfun, String.append_empty,
      String.append_assoc]

/-! Claim theorems. -/

/-- C1 counterexample: a schema with TWO primary-key-flagged fields does not
fail — `generate_update_sql`, `generate_delete_sql` and
`generate_select_by_id_sql` all produce a statement, keyed on the FIRST
flagged field `a` (field `b` is silently ignored), refuting the claim that
they fail for two or more primary-key fields. -/
theorem c1_counterexample_two_pk_succeeds :
    countPrimaryKeys demoTwoPk = 2 ∧
    generate_update_sql demoTwoPk = some "UPDATE t SET c = $1 WHERE a = $2;" ∧
    generate_delete_sql demoTwoPk = some "DELETE FROM t WHERE a = $1;" ∧
    generate_select_by_id_sql demoTwoPk = some "SELECT a, b, c FROM t WHERE a = $1;" := by
  refine ⟨by decide, by decide, by decide, by decide⟩

/-- C1 amended: with ZERO primary-key-flagged fields `update`, `delete` and
`select_by_id` all fail (the source panics, modelled as `none`); with one or
more flagged fields none of them fails — each produces a statement keyed on
the FIRST flagged field found. -/
theorem c1_amended_key_requirement (p : ParsedStruct) :
    (countPrimaryKeys p = 0 →
      generate_update_sql p = none ∧ generate_delete_sql p = none ∧
        generate_select_by_id_sql p = none) ∧
    (∀ pk, p.fields.find? (·.is_primary_key) = some pk →
      generate_delete_sql p =
          some ("DELETE FROM " ++ p.table_name ++ " WHERE " ++ pk.name ++ " = $1;") ∧
        generate_select_by_id_sql p =
          some ("SELECT " ++ strJoin ", " (p.fields.map (·.name)) ++ " FROM " ++
            p.table_name ++ " WHERE " ++ pk.name ++ " = $1;") ∧
        ∃ u, generate_update_sql p = some u) := by
  constructor
  · intro h0
    have hfil : p.fields.filter (·.is_primary_key) = [] := List.length_eq_zero.mp h0
    have hf : p.fields.find? (·.is_primary_key) = none := by
      rw [find?_eq_head?_filter, hfil]
      rfl
    exact ⟨by simp [generate_update_sql, hf], by simp [generate_delete_sql, hf],
      by simp [generate_select_by_id_sql, hf]⟩
  · intro pk hf
    refine ⟨by simp [generate_delete_sql, hf], by simp [generate_select_by_id_sql, hf], ?_⟩
    exact ⟨"UPDATE " ++ p.table_name ++ " SET " ++
      strJoin ", " ((p.fields.filter (fun f => !f.is_primary_key)).enum.map
        (fun pr => pr.2.name ++ " = $" ++ toString (pr.1 + 1))) ++
      " WHERE " ++ pk.name ++ " = $" ++
      toString ((p.fields.filter (fun f => !f.is_primary_key)).length + 1) ++ ";",
      by simp [generate_update_sql, hf]⟩

/-- C1 amended witness: the zero-key case fails for `demoNoPk`, and the
two-key schema `demoTwoPk` has its delete statement keyed on the first
flagged field. -/
theorem c1_amended_key_requirement_witness :
    generate_update_sql demoNoPk = none ∧
      generate_delete_sql demoTwoPk = some "DELETE FROM t WHERE a = $1;" := by
  constructor
  · exact ((c1_amended_key_requirement demoNoPk).1 (by decide)).1
  · have h := ((c1_amended_key_requirement demoTwoPk).2
      { name := "a", ty := tyI32, sql_type := "INT", is_primary_key := true, comment := none }
      (by decide)).1
    rw [h]
    decide

/-- C2: for a schema whose primary-key filter is exactly one field, the
update statement SET-enumerates every non-primary-key field once, in
declaration order, with placeholders `$1..$k` in that order; the primary-key
placeholder comes last as `$(k+1)`, and the WHERE clause references the
primary-key field's name. -/
theorem c2_update_set_clause (p : ParsedStruct) (pk : ParsedField)
    (h : p.fields.filter (·.is_primary_key) = [pk]) :
    generate_update_sql p =
      some ("UPDATE " ++ p.table_name ++ " SET " ++
        strJoin ", "
          (List.zipWith (fun (f : ParsedField) (i : Nat) => f.name ++ " = $" ++ toString i)
            (p.fields.filter (fun f => !f.is_primary_key))
            (List.range' 1 (p.fields.filter (fun f => !f.is_primary_key)).length)) ++
        " WHERE " ++ pk.name ++ " = $" ++
        toString ((p.fields.filter (fun f => !f.is_primary_key)).length + 1) ++ ";") := by
  have hf : p.fields.find? (·.is_primary_key) = some pk := by
    rw [find?_eq_head?_filter, h]
    rfl
  simp only [generate_update_sql, hf]
  rw [enum_set_clauses_eq]

/-- C2 witness: the spec's `User` example, whose single key is `id`. -/
theorem c2_update_set_clause_witness :
    generate_update_sql demoUser =
      some "UPDATE user SET name = $1, email = $2 WHERE id = $3;" := by
  rw [c2_update_set_clause demoUser
    { name := "id", ty := tyI32, sql_type := "INT", is_primary_key := true, comment := none }
    (by decide)]
  decide

/-- C4 counterexample: a struct with named fields but ZERO of them is
accepted by the extractor — `parse_struct` succeeds on it instead of
failing, refuting the claim that every empty record is rejected. -/
theorem c4_counterexample_empty_named_struct :
    parse_struct demoEmptyNamed =
      some { name := "Empty", table_name := "empty", fields := [], comment := none } := by
  decide

/-- C4 amended: extraction succeeds exactly when the input's data is a
struct with NAMED fields; tuple structs, unit structs, enums and unions are
rejected, while a named-field struct is accepted even with zero fields. -/
theorem c4_amended_named_fields_iff (input : DeriveInput) :
    (parse_struct input).isSome = isNamedStruct input.data := by
  rcases input with ⟨ident, attrs, data⟩
  cases data with
  | structData fk => cases fk <;> rfl
  | enumData => rfl
  | unionData => rfl

/-- C6: the Type Mapper is total and keyed case-sensitively on the type
name: the eight built-in mappings hold for any path qualification, every
other simple named type maps to its own name, and every structurally
unrecognizable (non-path) type maps to TEXT. -/
theorem c6_type_mapper_table (front : List String) :
    map_type_to_sql (.path front "i32") = "INT" ∧
    map_type_to_sql (.path front "i64") = "BIGINT" ∧
    map_type_to_sql (.path front "String") = "VARCHAR(255)" ∧
    map_type_to_sql (.path front "bool") = "BOOLEAN" ∧
    map_type_to_sql (.path front "f32") = "FLOAT" ∧
    map_type_to_sql (.path front "f64") = "DOUBLE" ∧
    map_type_to_sql (.path front "NaiveDateTime") = "DATETIME" ∧
    map_type_to_sql (.path front "Uuid") = "UUID" ∧
    (∀ s : String,
      s ∉ ["i32", "i64", "String", "bool", "f32", "f64", "NaiveDateTime", "Uuid"] →
        map_type_to_sql (.path front s) = s) ∧
    map_type_to_sql .other = "TEXT" := by
  refine ⟨rfl, rfl, rfl, rfl, rfl, rfl, rfl, rfl, ?_, rfl⟩
  intro s hs
  simp at hs
  obtain ⟨h1, h2, h3, h4, h5, h6, h7, h8⟩ := hs
  simp [map_type_to_sql, map_ident, h1, h2, h3, h4, h5, h6, h7, h8]

/-- C6 witness: an unmapped simple named type passes through unchanged. -/
theorem c6_type_mapper_table_witness :
    map_type_to_sql (.path ["serde_json"] "Value") = "Value" :=
  (c6_type_mapper_table ["serde_json"]).2.2.2.2.2.2.2.2.1 "Value" (by decide)

/-- C9: the Type Mapper looks only at the final path segment — the result is
independent of the qualifying segments; `std::string::String` and
`chrono::NaiveDateTime` map like their bare names, and any other path type
yields its final segment's identifier. -/
theorem c9_last_segment_decides (front front' : List String) (lastSeg : String) :
    map_type_to_sql (.path front lastSeg) = map_type_to_sql (.path front' lastSeg) ∧
    map_type_to_sql (.path ["std", "string"] "String") = "VARCHAR(255)" ∧
    map_type_to_sql (.path ["chrono"] "NaiveDateTime") = "DATETIME" ∧
    (∀ s : String,
      s ∉ ["i32", "i64", "String", "bool", "f32", "f64", "NaiveDateTime", "Uuid"] →
        map_type_to_sql (.path front s) = s) := by
  refine ⟨rfl, rfl, rfl, ?_⟩
  intro s hs
  simp at hs
  obtain ⟨h1, h2, h3, h4, h5, h6, h7, h8⟩ := hs
  simp [map_type_to_sql, map_ident, h1, h2, h3, h4, h5, h6, h7, h8]

/-- C9 witness: a qualified unmapped type yields its final segment only. -/
theorem c9_last_segment_decides_witness :
    map_type_to_sql (.path ["rust_decimal"] "Decimal") = "Decimal" :=
  (c9_last_segment_decides ["rust_decimal"] [] "x").2.2.2 "Decimal" (by decide)

/-- C10: the pipeline `create_table` has no table-level composite key
clause — its output is exactly the joined per-field column definitions,
where every flagged field carries an inline PRIMARY KEY marker inside its
own column definition; the two-key schema `demoTwoPk` therefore yields two
inline markers and no `PRIMARY KEY (...)` clause. -/
theorem c10_no_composite_clause (p : ParsedStruct) (nm st : String) (ty : RustType)
    (cmt : Option String) :
    generate_create_table_sql p =
      "CREATE TABLE IF NOT EXISTS " ++ p.table_name ++ " (\n" ++
        strJoin ",\n" (p.fields.map spec_column_shape) ++ "\n)" ++
        commentSuffix p.comment ++ ";" ∧
    spec_column_shape { name := nm, ty := ty, sql_type := st, is_primary_key := true, comment := cmt } =
      "    " ++ nm ++ " " ++ st ++ " PRIMARY KEY" ++ commentSuffix cmt ∧
    generate_create_table_sql demoTwoPk =
      "CREATE TABLE IF NOT EXISTS t (\n    a INT PRIMARY KEY,\n    b INT PRIMARY KEY,\n    c INT\n);" := by
  refine ⟨pipeline_create_table_eq p, ?_, by decide⟩
  simp [spec_column_shape]

theorem create_table_literal_split :
    ("CREATE TABLE IF NOT EXISTS " : String) = "CREATE TABLE" ++ " IF NOT EXISTS " := by
  decide

theorem comma_clause_split :
    (",\n    PRIMARY KEY (" : String) = "," ++ "\n    PRIMARY KEY (" := by
  decide

theorem map_question_replicate :
    ∀ fs : List RustField, fs.map (fun _ => "?") = List.replicate fs.length "?" := by
  intro fs
  induction fs with
  | nil => rfl
  | cons a t ih => simp [List.replicate, ih]

theorem countQuote_wrapped (c : String) :
    countQuote ("'" ++ escapeQuotes c ++ "'") = 2 * countQuote c + 2 := by
  have hq : ("'" : String).data = ['\''] := by decide
  simp [countQuote, String.data_append, hq, List.count_append, List.count_cons,
    escapeQuotes, count_escQuotesList]

/-- C5: for a schema with a non-empty field list, the pipeline create-table
output starts with CREATE TABLE; the emitted column-definition list has one
entry per field in declaration order, joined by exactly `field_count - 1`
comma separators, and the whole statement is that join with no table-level
key clause; with zero flagged fields no column carries an inline PRIMARY KEY
marker. On the monolithic path the composite `PRIMARY KEY (...)` clause is
absent when no field is flagged and contributes exactly one extra leading
comma when present. -/
theorem c5_create_table_columns (p : ParsedStruct) (h : p.fields ≠ []) :
    (∃ r, generate_create_table_sql p = "CREATE TABLE" ++ r) ∧
    (p.fields.map spec_column_shape).length = p.fields.length ∧
    joinSeps (p.fields.map spec_column_shape) = p.fields.length - 1 ∧
    generate_create_table_sql p =
      "CREATE TABLE IF NOT EXISTS " ++ p.table_name ++ " (\n" ++
        strJoin ",\n" (p.fields.map spec_column_shape) ++ "\n)" ++
        commentSuffix p.comment ++ ";" ∧
    (countPrimaryKeys p = 0 →
      ∀ f ∈ p.fields,
        spec_column_shape f =
          "    " ++ f.name ++ " " ++ f.sql_type ++ commentSuffix f.comment) ∧
    (∀ fs : List RustField, mono_primary_keys fs = [] → mono_primary_key_def fs = "") ∧
    (∀ fs : List RustField, mono_primary_keys fs ≠ [] →
      mono_primary_key_def fs =
        "," ++ ("\n    PRIMARY KEY (" ++ strJoin ", " (mono_primary_keys fs) ++ ")")) := by
  refine ⟨?_, List.length_map _ _, ?_, pipeline_create_table_eq p, ?_, ?_, ?_⟩
  · refine ⟨" IF NOT EXISTS " ++ (p.table_name ++ (" (\n" ++
      (strJoin ",\n" (p.fields.map spec_column_shape) ++
        ("\n)" ++ (commentSuffix p.comment ++ ";"))))), ?_⟩
    have hsplit : ∀ X : String,
        "CREATE TABLE IF NOT EXISTS " ++ X = "CREATE TABLE" ++ (" IF NOT EXISTS " ++ X) := by
      intro X
      rw [← String.append_assoc, ← create_table_literal_split]
    rw [pipeline_create_table_eq p]
    simp only [String.append_assoc]
    rw [hsplit]
  · rw [joinSeps_eq_length_sub_one, List.length_map]
  · intro h0 f hfmem
    have hfil : p.fields.filter (·.is_primary_key) = [] := List.length_eq_zero.mp h0
    have hnot := List.filter_eq_nil.mp hfil f hfmem
    have hfalse : f.is_primary_key = false := by
      cases hv : f.is_primary_key
      · rfl
      · exact absurd hv hnot
    simp [spec_column_shape, hfalse, String.append_empty]
  · intro fs hm
    simp [mono_primary_key_def, hm]
  · intro fs hm
    cases hx : mono_primary_keys fs with
    | nil => exact absurd hx hm
    | cons a t =>
        have hsplit : ∀ X : String,
            ",\n    PRIMARY KEY (" ++ X = "," ++ ("\n    PRIMARY KEY (" ++ X) := by
          intro X
          rw [← String.append_assoc, ← comma_clause_split]
        rw [mono_primary_key_def, hx]
        simp only [List.isEmpty_cons, Bool.false_eq_true, if_false]
        rw [String.append_assoc, hsplit]
        rw [String.append_assoc]

/-- C5 witness: the spec's `User` example. -/
theorem c5_create_table_columns_witness :
    generate_create_table_sql demoUser =
      "CREATE TABLE IF NOT EXISTS user (\n    id INT PRIMARY KEY,\n    name VARCHAR(255),\n    email VARCHAR(255)\n);" := by
  rw [(c5_create_table_columns demoUser (by decide)).2.2.2.1]
  decide

/-- C7: the pipeline insert statement lists exactly `field_count` column
names and exactly `field_count` numbered placeholders `$1..$n`, both in
declaration order (the i-th placeholder is `$i`, matching the i-th column);
the monolithic insert lists the same columns with exactly `field_count`
unnumbered `?` placeholders. -/
theorem c7_insert_field_count (p : ParsedStruct) (t : String) (fs : List RustField) :
    generate_insert_sql p =
      "INSERT INTO " ++ p.table_name ++ " (" ++
        strJoin ", " (p.fields.map (·.name)) ++ ") VALUES (" ++
        strJoin ", " ((List.range' 1 p.fields.length).map (fun i => "$" ++ toString i)) ++ ");" ∧
    (p.fields.map (·.name)).length = p.fields.length ∧
    ((List.range' 1 p.fields.length).map (fun i => "$" ++ toString i)).length = p.fields.length ∧
    mono_insert_sql t fs =
      "INSERT INTO " ++ t ++ " (" ++ strJoin ", " (fs.map (·.name)) ++ ") VALUES (" ++
        strJoin ", " (List.replicate fs.length "?") ++ ")" ∧
    (fs.map (·.name)).length = fs.length ∧
    (List.replicate fs.length "?").length = fs.length := by
  refine ⟨?_, List.length_map _ _, ?_, ?_, List.length_map _ _, List.length_replicate _ _⟩
  · simp only [generate_insert_sql]
    rw [enum_placeholders_eq]
  · rw [List.length_map, List.length_range']
  · simp only [mono_insert_sql]
    rw [map_question_replicate]

/-- C8: comment text is escaped by doubling every single-quote character, so
the quoted segment `'<escaped>'` always holds an even number of quote
characters; the pipeline column definition, the pipeline table-level
comment, and the monolithic column definition all wrap the escaped text this
way. -/
theorem c8_comment_escaping (c nm st tn snm : String) (ty : RustType) (pk : Bool)
    (fsP : List ParsedField) :
    countQuote (escapeQuotes c) = 2 * countQuote c ∧
    countQuote ("'" ++ escapeQuotes c ++ "'") % 2 = 0 ∧
    pipeline_column_def { name := nm, ty := ty, sql_type := st, is_primary_key := pk, comment := some c } =
      ("    " ++ nm ++ " " ++ st ++ (if pk then " PRIMARY KEY" else "")) ++
        (" COMMENT '" ++ escapeQuotes c ++ "'") ∧
    generate_create_table_sql { name := snm, table_name := tn, fields := fsP, comment := some c } =
      ("CREATE TABLE IF NOT EXISTS " ++ tn ++ " (\n" ++
        strJoin ",\n" (fsP.map pipeline_column_def) ++ "\n)") ++
        (" COMMENT '" ++ escapeQuotes c ++ "'") ++ ";" ∧
    mono_column_def { name := nm, ty := ty, attrs := [{ path := "comment", value := some c }] } =
      nm ++ " " ++ map_type_to_sql ty ++ (" COMMENT '" ++ escapeQuotes c ++ "'") := by
  refine ⟨?_, ?_, ?_, ?_, ?_⟩
  · simp [countQuote, escapeQuotes, count_escQuotesList]
  · rw [countQuote_wrapped]
    omega
  · cases pk <;>
      simp [pipeline_column_def, String.append_empty, String.append_assoc]
  · simp [generate_create_table_sql, String.append_assoc]
  · rfl

theorem head?_append_or {α : Type} (l l' : List α) :
    (l ++ l').head? = l.head?.or l'.head? := by
  cases l <;> rfl

theorem paren_semi_data : ((");" : String)).data = [')', ';'] := by decide

theorem paren_data : ((")" : String)).data = [')'] := by decide

theorem semi_data : (";" : String).data = [';'] := by decide

theorem eq_q_tail_getLast? (q : String) : (q ++ " = ?").data.getLast? = some '?' := by
  rw [String.data_append, List.getLast?_append]
  have h : (" = ?" : String).data.getLast? = some '?' := by decide
  rw [h]
  rfl

theorem mono_update_shape (t : String) (fs : List RustField) :
    mono_update_sql t fs =
      ("UPDATE " ++ t ++ " SET " ++
        strJoin ", " ((fs.filter (fun f => !((mono_primary_keys fs).contains f.name))).map
          (fun f => f.name ++ " = ?")) ++ " WHERE ") ++
      strJoin " AND " ((mono_primary_keys fs).map (fun pk => pk ++ " = ?")) := by
  simp only [mono_update_sql, String.append_assoc]

/-- C3: the two translation paths disagree. The pipeline insert uses
numbered `$1..$n` placeholders and a trailing semicolon while the monolithic
insert uses unnumbered `?` placeholders and no semicolon, and on any schema
extracted from a named-field struct the two insert statements differ; every
update statement the pipeline produces likewise differs from the monolithic
update statement for the same input. -/
theorem c3_two_paths_disagree (input : DeriveInput) (fs : List RustField) (p : ParsedStruct)
    (h1 : input.data = .structData (.named fs)) (h2 : fs ≠ [])
    (h3 : parse_struct input = some p) :
    generate_insert_sql p =
      "INSERT INTO " ++ p.table_name ++ " (" ++ strJoin ", " (p.fields.map (·.name)) ++
        ") VALUES (" ++
        strJoin ", " ((List.range' 1 p.fields.length).map (fun i => "$" ++ toString i)) ++ ");" ∧
    mono_insert_sql (get_table_name input.attrs input.ident) fs =
      "INSERT INTO " ++ get_table_name input.attrs input.ident ++ " (" ++
        strJoin ", " (fs.map (·.name)) ++ ") VALUES (" ++
        strJoin ", " (List.replicate fs.length "?") ++ ")" ∧
    generate_insert_sql p ≠ mono_insert_sql (get_table_name input.attrs input.ident) fs ∧
    ∀ u, generate_update_sql p = some u →
      u ≠ mono_update_sql (get_table_name input.attrs input.ident) fs := by
  have hp : p = { name := input.ident
                  table_name := get_table_name input.attrs input.ident
                  fields := fs.map parse_field
                  comment := extract_comment input.attrs } := by
    simp only [parse_struct, h1] at h3
    exact (Option.some.inj h3).symm
  have hfields : p.fields = fs.map parse_field := by rw [hp]
  have hpl : (generate_insert_sql p).data.getLast? = some ';' := by
    simp only [generate_insert_sql]
    rw [String.data_append, paren_semi_data, List.getLast?_append]
    rfl
  have hml : (mono_insert_sql (get_table_name input.attrs input.ident) fs).data.getLast? =
      some ')' := by
    simp only [mono_insert_sql]
    rw [String.data_append, paren_data, List.getLast?_append]
    rfl
  refine ⟨?_, ?_, ?_, ?_⟩
  · simp only [generate_insert_sql]
    rw [enum_placeholders_eq]
  · simp only [mono_insert_sql]
    rw [map_question_replicate]
  · intro heq
    rw [heq, hml] at hpl
    exact absurd hpl (by decide)
  · intro u hu heq
    cases hf : p.fields.find? (·.is_primary_key) with
    | none => simp [generate_update_sql, hf] at hu
    | some pk =>
        simp only [generate_update_sql, hf] at hu
        have hbig := Option.some.inj hu
        have hlast1 : u.data.getLast? = some ';' := by
          rw [← hbig, String.data_append, semi_data, List.getLast?_concat]
        have hpk_raw : ∃ f, f ∈ fs ∧ mono_is_pk_field f = true := by
          have hmem := List.mem_of_find?_eq_some hf
          have hflag := List.find?_some hf
          rw [hfields] at hmem
          obtain ⟨f, hfmem, hfeq⟩ := List.mem_map.mp hmem
          refine ⟨f, hfmem, ?_⟩
          have hsame : (parse_field f).is_primary_key = mono_is_pk_field f := rfl
          rw [← hsame, hfeq]
          exact hflag
        obtain ⟨f, hfmem, hfpk⟩ := hpk_raw
        have hpks_ne : mono_primary_keys fs ≠ [] := by
          have hmemname : f.name ∈ mono_primary_keys fs :=
            List.mem_map_of_mem _ (List.mem_filter.mpr ⟨hfmem, hfpk⟩)
          exact List.ne_nil_of_mem hmemname
        have hlast2 : (mono_update_sql (get_table_name input.attrs input.ident) fs).data.getLast? =
            some '?' := by
          rw [mono_update_shape, String.data_append, List.getLast?_append]
          have hwc : (strJoin " AND "
              ((mono_primary_keys fs).map (fun pk => pk ++ " = ?"))).data.getLast? =
              some '?' := by
            apply strJoin_getLast?_mem
            · intro hnil
              exact hpks_ne (List.map_eq_nil.mp hnil)
            · intro s hs
              obtain ⟨q, hq, hqs⟩ := List.mem_map.mp hs
              rw [← hqs]
              exact eq_q_tail_getLast? q
          rw [hwc]
          rfl
        rw [heq, hlast2] at hlast1
        exact absurd hlast1 (by decide)

/-- C3 witness: the spec's `User` example, on which the pipeline insert and
the monolithic insert differ. -/
theorem c3_two_paths_disagree_witness :
    generate_insert_sql demoUser ≠ mono_insert_sql "user" demoUserFields := by
  have h := (c3_two_paths_disagree demoUserInput demoUserFields demoUser rfl (by decide)
      (by decide)).2.2.1
  rw [show get_table_name demoUserInput.attrs demoUserInput.ident = "user" from by decide] at h
  exact h
